import Mathlib

/-!
Verification of the Triage Go SDK (telemetry-annotation layer).

This file gives a shallow embedding of the core of the repository:
the annotation context (context.go), its six developer helpers and the
attribute projection (getTriageAttrs), the LLM call span layer — the
repository carries two generations of it, one in llm.go (using
activeConfig and PromptParams; here namespace LlmA) and one in the
unnamed source part (using globalCfg and Prompt; here namespace LlmB) —
the hierarchy spans (workflow.go; namespace Wf) and the SDK lifecycle
(sdk.go; namespace Sdk).  Span attributes are modelled as the ordered
list of (key, value) pairs the code writes onto the span; the span
handle itself and the OTel runtime are external collaborators and stay
abstract.  Go float64 request parameters are only carried through
(never computed with); they are modelled as exact rationals so that all
definitions stay kernel-executable.
-/

namespace TriageSDK

/-- Span attribute keys.  Fixed keys are literals; indexed keys mirror
the two fmt.Sprintf shapes of the source: `base ++ "." ++ i ++ field`
for message / tool-definition attributes and the doubly indexed
`base ++ "." ++ i ++ ".tool_calls." ++ j ++ field` for tool calls. -/
inductive AttrKey where
  | flat (name : String)
  | idx (base : String) (i : Nat) (field : String)
  | toolCall (base : String) (i : Nat) (j : Nat) (field : String)
deriving DecidableEq, Repr

/-- The string a key renders to on the wire. -/
def AttrKey.render : AttrKey → String
  | .flat n => n
  | .idx b i f => b ++ "." ++ toString i ++ f
  | .toolCall b i j f => b ++ "." ++ toString i ++ ".tool_calls." ++ toString j ++ f

/-- Span attribute values (OTel string / int64 / float64 / string-slice
attributes, as used by the source). -/
inductive AttrVal where
  | str (s : String)
  | int (n : Int)
  | float (x : Rat)
  | strList (l : List String)
deriving DecidableEq, Repr

/-- One attribute written onto a span. -/
abbrev Attr := AttrKey × AttrVal

-- constants.go: triage context span attribute keys.
def AttrUserID          := "triage.user.id"
def AttrUserRole        := "triage.user.role"
def AttrTenantID        := "triage.tenant.id"
def AttrTenantName      := "triage.tenant.name"
def AttrSessionID       := "triage.session.id"
def AttrSessionTurn     := "triage.session.turn_number"
def AttrSessionHash     := "triage.session.history_hash"
def AttrInputRaw        := "triage.input.raw"
def AttrInputSanitized  := "triage.input.sanitized"
def AttrTemplateID      := "triage.template.id"
def AttrTemplateVersion := "triage.template.version"
def AttrChunkACLs       := "triage.chunk_acls"

-- constants.go (llm.go generation): gen_ai semantic convention keys.
def AttrGenAISystem                := "gen_ai.system"
def AttrGenAIRequestModel          := "gen_ai.request.model"
def AttrGenAIResponseModel         := "gen_ai.response.model"
def AttrGenAIRequestTemperature    := "gen_ai.request.temperature"
def AttrGenAIRequestTopP           := "gen_ai.request.top_p"
def AttrGenAIRequestMaxTokens      := "gen_ai.request.max_tokens"
def AttrGenAIRequestStopSequences  := "gen_ai.request.stop_sequences"
def AttrGenAIUsageInputTokens      := "gen_ai.usage.input_tokens"
def AttrGenAIUsageOutputTokens     := "gen_ai.usage.output_tokens"
def AttrGenAIUsageTotalTokens      := "gen_ai.usage.total_tokens"
def AttrGenAIUsageReasoningTokens  := "gen_ai.usage.reasoning_tokens"
def AttrGenAIUsageCacheReadTokens  := "gen_ai.usage.cache_read_tokens"
def AttrGenAIUsageCacheWriteTokens := "gen_ai.usage.cache_write_tokens"
def AttrGenAIResponseFinishReason  := "gen_ai.response.finish_reason"

/-- config.go: resolved SDK configuration. -/
structure Config where
  apiKey : String := ""
  endpoint : String := ""
  appName : String := ""
  environment : String := ""
  enabled : Bool := true
  traceContent : Bool := true
deriving DecidableEq, Repr

/-- context.go: triageContext — all triage annotation values attached to
a context.  Go string fields default to the empty string; the turn
number is a nullable pointer, modelled as an Option. -/
structure TriageContext where
  userID : String := ""
  userRole : String := ""
  tenantID : String := ""
  tenantName : String := ""
  sessionID : String := ""
  sessionTurnNumber : Option Int := none
  sessionHistoryHash : String := ""
  inputRaw : String := ""
  inputSanitized : String := ""
  templateID : String := ""
  templateVersion : String := ""
  chunkACLs : String := ""
deriving DecidableEq, Repr

/-- context.go: clone.  The Go code copies the struct and deep-copies
the sessionTurnNumber pointer so mutation of the copy cannot reach the
original; under value semantics this is the identity. -/
def TriageContext.clone (tc : TriageContext) : TriageContext := tc

/-- The empty context returned by getFromContext when nothing is set. -/
def emptyTriageContext : TriageContext := {}

-- Per-helper option types (context.go).

inductive UserOption where
  | userRole (role : String)
deriving DecidableEq, Repr

inductive TenantOption where
  | tenantName (name : String)
deriving DecidableEq, Repr

inductive SessionOption where
  | turnNumber (n : Int)
  | historyHash (h : String)
deriving DecidableEq, Repr

inductive InputOption where
  | sanitized (s : String)
deriving DecidableEq, Repr

inductive TemplateOption where
  | templateVersion (v : String)
deriving DecidableEq, Repr

def applyUserOption (tc : TriageContext) : UserOption → TriageContext
  | .userRole r => { tc with userRole := r }

def applyTenantOption (tc : TriageContext) : TenantOption → TriageContext
  | .tenantName n => { tc with tenantName := n }

def applySessionOption (tc : TriageContext) : SessionOption → TriageContext
  | .turnNumber n => { tc with sessionTurnNumber := some n }
  | .historyHash h => { tc with sessionHistoryHash := h }

def applyInputOption (tc : TriageContext) : InputOption → TriageContext
  | .sanitized s => { tc with inputSanitized := s }

def applyTemplateOption (tc : TriageContext) : TemplateOption → TriageContext
  | .templateVersion v => { tc with templateVersion := v }

/-- One call to one of the six public annotation helpers.  For
WithChunkACLs the caller-supplied slice enters the context only as its
JSON serialization; `none` stands for a json.Marshal failure, in which
case the helper stores the unmodified clone. -/
inductive Update where
  | withUser (userID : String) (opts : List UserOption)
  | withTenant (tenantID : String) (opts : List TenantOption)
  | withSession (sessionID : String) (opts : List SessionOption)
  | withInput (raw : String) (opts : List InputOption)
  | withTemplate (templateID : String) (opts : List TemplateOption)
  | withChunkACLs (serialized : Option String)
deriving DecidableEq, Repr

/-- context.go: the effect of each helper on the stored triageContext —
clone, set the mandatory field, then apply the options in order. -/
def applyUpdate (tc : TriageContext) : Update → TriageContext
  | .withUser id opts => opts.foldl applyUserOption { tc.clone with userID := id }
  | .withTenant id opts => opts.foldl applyTenantOption { tc.clone with tenantID := id }
  | .withSession id opts => opts.foldl applySessionOption { tc.clone with sessionID := id }
  | .withInput raw opts => opts.foldl applyInputOption { tc.clone with inputRaw := raw }
  | .withTemplate id opts => opts.foldl applyTemplateOption { tc.clone with templateID := id }
  | .withChunkACLs ser =>
      match ser with
      | none => tc.clone
      | some s => { tc.clone with chunkACLs := s }

/-- A chain of annotation-helper calls applied left to right. -/
def applyAll (tc : TriageContext) (us : List Update) : TriageContext :=
  us.foldl applyUpdate tc

/-- The twelve fields of the annotation context. -/
inductive Field where
  | userID | userRole | tenantID | tenantName | sessionID | sessionTurnNumber
  | sessionHistoryHash | inputRaw | inputSanitized | templateID | templateVersion
  | chunkACLs
deriving DecidableEq, Repr

/-- A field value: a plain string or the nullable turn number. -/
inductive FieldVal where
  | s (v : String)
  | turn (v : Option Int)
deriving DecidableEq, Repr

def getField (tc : TriageContext) : Field → FieldVal
  | .userID => .s tc.userID
  | .userRole => .s tc.userRole
  | .tenantID => .s tc.tenantID
  | .tenantName => .s tc.tenantName
  | .sessionID => .s tc.sessionID
  | .sessionTurnNumber => .turn tc.sessionTurnNumber
  | .sessionHistoryHash => .s tc.sessionHistoryHash
  | .inputRaw => .s tc.inputRaw
  | .inputSanitized => .s tc.inputSanitized
  | .templateID => .s tc.templateID
  | .templateVersion => .s tc.templateVersion
  | .chunkACLs => .s tc.chunkACLs

def UserOption.writes : UserOption → Field → Bool
  | .userRole _, f => f == .userRole

def TenantOption.writes : TenantOption → Field → Bool
  | .tenantName _, f => f == .tenantName

def SessionOption.writes : SessionOption → Field → Bool
  | .turnNumber _, f => f == .sessionTurnNumber
  | .historyHash _, f => f == .sessionHistoryHash

def InputOption.writes : InputOption → Field → Bool
  | .sanitized _, f => f == .inputSanitized

def TemplateOption.writes : TemplateOption → Field → Bool
  | .templateVersion _, f => f == .templateVersion

/-- Which fields a helper call overwrites: its mandatory field plus
whatever its options set (WithChunkACLs writes nothing when the JSON
serialization failed). -/
def Update.writes : Update → Field → Bool
  | .withUser _ opts, f => f == .userID || opts.any (·.writes f)
  | .withTenant _ opts, f => f == .tenantID || opts.any (·.writes f)
  | .withSession _ opts, f => f == .sessionID || opts.any (·.writes f)
  | .withInput _ opts, f => f == .inputRaw || opts.any (·.writes f)
  | .withTemplate _ opts, f => f == .templateID || opts.any (·.writes f)
  | .withChunkACLs ser, f => ser.isSome && f == .chunkACLs

/-- The fixed triage.* key of each field (constants.go). -/
def fieldKey : Field → String
  | .userID => AttrUserID
  | .userRole => AttrUserRole
  | .tenantID => AttrTenantID
  | .tenantName => AttrTenantName
  | .sessionID => AttrSessionID
  | .sessionTurnNumber => AttrSessionTurn
  | .sessionHistoryHash => AttrSessionHash
  | .inputRaw => AttrInputRaw
  | .inputSanitized => AttrInputSanitized
  | .templateID => AttrTemplateID
  | .templateVersion => AttrTemplateVersion
  | .chunkACLs => AttrChunkACLs

/-- A field is present when non-empty (strings) resp. explicitly set
(the nullable turn number). -/
def fieldPresent (tc : TriageContext) : Field → Bool
  | .userID => tc.userID != ""
  | .userRole => tc.userRole != ""
  | .tenantID => tc.tenantID != ""
  | .tenantName => tc.tenantName != ""
  | .sessionID => tc.sessionID != ""
  | .sessionTurnNumber => tc.sessionTurnNumber.isSome
  | .sessionHistoryHash => tc.sessionHistoryHash != ""
  | .inputRaw => tc.inputRaw != ""
  | .inputSanitized => tc.inputSanitized != ""
  | .templateID => tc.templateID != ""
  | .templateVersion => tc.templateVersion != ""
  | .chunkACLs => tc.chunkACLs != ""

/-- context.go: getTriageAttrs — the ordered list of non-zero-value
attributes the span processor writes, one conditional append per field,
in source order. -/
def getTriageAttrs (tc : TriageContext) : List Attr :=
  (if tc.userID ≠ "" then [(.flat AttrUserID, .str tc.userID)] else []) ++
  (if tc.userRole ≠ "" then [(.flat AttrUserRole, .str tc.userRole)] else []) ++
  (if tc.tenantID ≠ "" then [(.flat AttrTenantID, .str tc.tenantID)] else []) ++
  (if tc.tenantName ≠ "" then [(.flat AttrTenantName, .str tc.tenantName)] else []) ++
  (if tc.sessionID ≠ "" then [(.flat AttrSessionID, .str tc.sessionID)] else []) ++
  (match tc.sessionTurnNumber with
   | some n => [(.flat AttrSessionTurn, .int n)]
   | none => []) ++
  (if tc.sessionHistoryHash ≠ "" then [(.flat AttrSessionHash, .str tc.sessionHistoryHash)] else []) ++
  (if tc.inputRaw ≠ "" then [(.flat AttrInputRaw, .str tc.inputRaw)] else []) ++
  (if tc.inputSanitized ≠ "" then [(.flat AttrInputSanitized, .str tc.inputSanitized)] else []) ++
  (if tc.templateID ≠ "" then [(.flat AttrTemplateID, .str tc.templateID)] else []) ++
  (if tc.templateVersion ≠ "" then [(.flat AttrTemplateVersion, .str tc.templateVersion)] else []) ++
  (if tc.chunkACLs ≠ "" then [(.flat AttrChunkACLs, .str tc.chunkACLs)] else [])

/-!
The llm.go generation of the LLM call layer (PromptParams, activeConfig,
AttrGenAI* constants, no llm.* compatibility schema, span name without
the model, message and tool-definition attributes both behind the
content gate).
-/

namespace LlmA

/-- llm.go: Message — a chat message (prompt or completion). -/
structure ToolCallA where
  ID : String := ""
  «Type» : String := ""
  Name : String := ""
  Arguments : String := ""
deriving DecidableEq, Repr

structure Message where
  Role : String := ""
  Content : String := ""
  ToolCalls : List ToolCallA := []
deriving DecidableEq, Repr

/-- llm.go: ToolDefinition.  Parameters is an arbitrary Go value that is
JSON-marshalled; it enters the attributes only as the marshalled string,
so it is modelled as that string, with `none` covering both a nil value
and a marshal failure (observationally identical: no attribute). -/
structure ToolDefinition where
  Name : String := ""
  Description : String := ""
  Parameters : Option String := none
deriving DecidableEq, Repr

structure Usage where
  InputTokens : Int := 0
  OutputTokens : Int := 0
  TotalTokens : Int := 0
  ReasoningTokens : Int := 0
  CacheReadTokens : Int := 0
  CacheWriteTokens : Int := 0
deriving DecidableEq, Repr

structure PromptParams where
  Vendor : String := ""
  Model : String := ""
  Messages : List Message := []
  Tools : List ToolDefinition := []
  Temperature : Option Rat := none
  TopP : Option Rat := none
  MaxTokens : Option Int := none
  Stop : List String := []
deriving DecidableEq, Repr

structure CompletionParams where
  Model : String := ""
  Messages : List Message := []
  Usage : Usage := {}
  FinishReason : String := ""
deriving DecidableEq, Repr

/-- llm.go: shouldTraceContent — true by default when the SDK is not
initialized or the config is not set. -/
def shouldTraceContent (activeConfig : Option Config) : Bool :=
  match activeConfig with
  | none => true
  | some c => c.traceContent

/-- llm.go: the span name chosen by LogPrompt: vendor + ".chat", with
the fixed fallback "llm.chat" when the vendor is empty.  The model never
enters the name in this generation. -/
def logPromptSpanName (params : PromptParams) : String :=
  if params.Vendor = "" then "llm.chat" else params.Vendor ++ ".chat"

def toolCallAttrs (base : String) (i : Nat) : Nat → List ToolCallA → List Attr
  | _, [] => []
  | j, tc :: rest =>
    ((if tc.ID ≠ "" then [(.toolCall base i j ".id", .str tc.ID)] else []) ++
     (if tc.«Type» ≠ "" then [(.toolCall base i j ".type", .str tc.«Type»)] else []) ++
     (if tc.Name ≠ "" then [(.toolCall base i j ".name", .str tc.Name)] else []) ++
     (if tc.Arguments ≠ "" then [(.toolCall base i j ".arguments", .str tc.Arguments)] else [])) ++
    toolCallAttrs base i (j + 1) rest

/-- llm.go: setMessageAttrs — indexed message attributes, base is
"gen_ai.prompt" or "gen_ai.completion". -/
def setMessageAttrs (base : String) : Nat → List Message → List Attr
  | _, [] => []
  | i, msg :: rest =>
    ((if msg.Role ≠ "" then [(.idx base i ".role", .str msg.Role)] else []) ++
     (if msg.Content ≠ "" then [(.idx base i ".content", .str msg.Content)] else []) ++
     toolCallAttrs base i 0 msg.ToolCalls) ++
    setMessageAttrs base (i + 1) rest

/-- llm.go: setToolDefinitionAttrs — keys under gen_ai.request.tools. -/
def setToolDefinitionAttrs : Nat → List ToolDefinition → List Attr
  | _, [] => []
  | i, tool :: rest =>
    ((if tool.Name ≠ "" then [(.idx "gen_ai.request.tools" i ".name", .str tool.Name)] else []) ++
     (if tool.Description ≠ "" then [(.idx "gen_ai.request.tools" i ".description", .str tool.Description)] else []) ++
     (match tool.Parameters with
      | some data => [(.idx "gen_ai.request.tools" i ".parameters", .str data)]
      | none => [])) ++
    setToolDefinitionAttrs (i + 1) rest

/-- llm.go: the request attributes LogPrompt sets unconditionally
(before the content gate), in source order. -/
def requestAttrs (params : PromptParams) : List Attr :=
  (if params.Vendor ≠ "" then [(.flat AttrGenAISystem, .str params.Vendor)] else []) ++
  (if params.Model ≠ "" then [(.flat AttrGenAIRequestModel, .str params.Model)] else []) ++
  (match params.Temperature with
   | some t => [(.flat AttrGenAIRequestTemperature, .float t)]
   | none => []) ++
  (match params.TopP with
   | some t => [(.flat AttrGenAIRequestTopP, .float t)]
   | none => []) ++
  (match params.MaxTokens with
   | some m => [(.flat AttrGenAIRequestMaxTokens, .int m)]
   | none => []) ++
  (if params.Stop.length > 0 then [(.flat AttrGenAIRequestStopSequences, .strList params.Stop)] else [])

/-- llm.go: the attributes LogPrompt sets on the new span, in source
order.  Messages and tool definitions are both recorded only when
content tracing is enabled. -/
def logPromptAttrs (activeConfig : Option Config) (params : PromptParams) : List Attr :=
  requestAttrs params ++
  (if shouldTraceContent activeConfig then
     setMessageAttrs "gen_ai.prompt" 0 params.Messages ++
     setToolDefinitionAttrs 0 params.Tools
   else [])

/-- llm.go: the response and usage attributes LogCompletion sets
unconditionally (before the content gate) — response model, finish
reason, and each usage counter only when strictly positive. -/
def responseAttrs (params : CompletionParams) : List Attr :=
  (if params.Model ≠ "" then [(.flat AttrGenAIResponseModel, .str params.Model)] else []) ++
  (if params.FinishReason ≠ "" then [(.flat AttrGenAIResponseFinishReason, .str params.FinishReason)] else []) ++
  (if params.Usage.InputTokens > 0 then [(.flat AttrGenAIUsageInputTokens, .int params.Usage.InputTokens)] else []) ++
  (if params.Usage.OutputTokens > 0 then [(.flat AttrGenAIUsageOutputTokens, .int params.Usage.OutputTokens)] else []) ++
  (if params.Usage.TotalTokens > 0 then [(.flat AttrGenAIUsageTotalTokens, .int params.Usage.TotalTokens)] else []) ++
  (if params.Usage.ReasoningTokens > 0 then [(.flat AttrGenAIUsageReasoningTokens, .int params.Usage.ReasoningTokens)] else []) ++
  (if params.Usage.CacheReadTokens > 0 then [(.flat AttrGenAIUsageCacheReadTokens, .int params.Usage.CacheReadTokens)] else []) ++
  (if params.Usage.CacheWriteTokens > 0 then [(.flat AttrGenAIUsageCacheWriteTokens, .int params.Usage.CacheWriteTokens)] else [])

/-- llm.go: the attributes LogCompletion sets before ending the span —
the unconditional response / usage attributes, then the completion
messages behind the content gate. -/
def logCompletionAttrs (activeConfig : Option Config) (params : CompletionParams) : List Attr :=
  responseAttrs params ++
  (if shouldTraceContent activeConfig then setMessageAttrs "gen_ai.completion" 0 params.Messages else [])

/-- The LLMSpan record of llm.go: one field holding the underlying span
handle, which may itself be nil.  The handle identity is irrelevant. -/
structure LLMSpanRec where
  span : Option Unit := none
deriving DecidableEq, Repr

/-- The result of running one lifecycle method: the attributes written
and whether the underlying span was ended.  `none` means the method
panicked (nil pointer dereference). -/
abbrev MethodResult := Option (List Attr × Bool)

/-- llm.go: LogCompletion on a possibly nil receiver.  The body reads
s.span before any receiver check, so a nil *LLMSpan receiver panics;
a non-nil receiver with a nil span field returns early. -/
def logCompletionOn (s : Option LLMSpanRec) (activeConfig : Option Config)
    (params : CompletionParams) : MethodResult :=
  match s with
  | none => none
  | some rec0 =>
    match rec0.span with
    | none => some ([], false)
    | some _ => some (logCompletionAttrs activeConfig params, true)

/-- llm.go: End on a possibly nil receiver — same receiver dereference,
so a nil *LLMSpan panics; otherwise ends the span when present. -/
def endOn (s : Option LLMSpanRec) : MethodResult :=
  match s with
  | none => none
  | some rec0 =>
    match rec0.span with
    | none => some ([], false)
    | some _ => some ([], true)

/-- llm.go: SetError on a possibly nil receiver (records the error and
sets the status, never ends the span). -/
def setErrorOn (s : Option LLMSpanRec) : MethodResult :=
  match s with
  | none => none
  | some rec0 =>
    match rec0.span with
    | none => some ([], false)
    | some _ => some ([], false)

end LlmA

/-!
The generation of the LLM call layer in the unnamed source part
(Prompt, globalCfg, literal gen_ai.* and llm.* keys, span name with the
model, tool definitions always recorded, usage recorded unconditionally).
-/

namespace LlmB

structure ToolCallFunction where
  Name : String := ""
  Arguments : String := ""
deriving DecidableEq, Repr

structure ToolCallB where
  ID : String := ""
  «Type» : String := ""
  Function : ToolCallFunction := {}
deriving DecidableEq, Repr

structure Message where
  Role : String := ""
  Content : String := ""
  ToolCalls : List ToolCallB := []
  ToolCallID : String := ""
deriving DecidableEq, Repr

/-- ToolFunction.Parameters is a JSON-schema value that is marshalled;
modelled as the marshalled string, `none` covering nil or a marshal
failure (both emit no attribute). -/
structure ToolFunction where
  Name : String := ""
  Description : String := ""
  Parameters : Option String := none
deriving DecidableEq, Repr

structure ToolDef where
  «Type» : String := ""
  Function : ToolFunction := {}
deriving DecidableEq, Repr

structure Prompt where
  Vendor : String := ""
  Model : String := ""
  Messages : List Message := []
  Tools : List ToolDef := []
  MaxTokens : Int := 0
  Temperature : Option Rat := none
  TopP : Option Rat := none
  FrequencyPenalty : Option Rat := none
  PresencePenalty : Option Rat := none
  Stop : List String := []
deriving DecidableEq, Repr

structure Completion where
  Model : String := ""
  Messages : List Message := []
deriving DecidableEq, Repr

structure Usage where
  PromptTokens : Int := 0
  CompletionTokens : Int := 0
  TotalTokens : Int := 0
deriving DecidableEq, Repr

/-- isTraceContentEnabled — defaults to true when globalCfg is nil. -/
def isTraceContentEnabled (globalCfg : Option Config) : Bool :=
  match globalCfg with
  | none => true
  | some c => c.traceContent

/-- The span name chosen by this LogPrompt: vendor + ".chat", and with a
non-empty model vendor + ".chat " + model.  No fallback exists for an
empty vendor. -/
def logPromptSpanName (p : Prompt) : String :=
  if p.Model ≠ "" then p.Vendor ++ ".chat " ++ p.Model else p.Vendor ++ ".chat"

def toolCallAttrs (base : String) (i : Nat) : Nat → List ToolCallB → List Attr
  | _, [] => []
  | j, tc :: rest =>
    [(.toolCall base i j ".id", .str tc.ID),
     (.toolCall base i j ".type", .str tc.«Type»),
     (.toolCall base i j ".function.name", .str tc.Function.Name),
     (.toolCall base i j ".function.arguments", .str tc.Function.Arguments)] ++
    toolCallAttrs base i (j + 1) rest

/-- The prompt-message loop of LogPrompt: role unconditionally, content
when non-empty, every tool call in full, tool_call_id when non-empty. -/
def promptMsgAttrs : Nat → List Message → List Attr
  | _, [] => []
  | i, msg :: rest =>
    ([(.idx "gen_ai.prompt" i ".role", .str msg.Role)] ++
     (if msg.Content ≠ "" then [(.idx "gen_ai.prompt" i ".content", .str msg.Content)] else []) ++
     toolCallAttrs "gen_ai.prompt" i 0 msg.ToolCalls ++
     (if msg.ToolCallID ≠ "" then [(.idx "gen_ai.prompt" i ".tool_call_id", .str msg.ToolCallID)] else [])) ++
    promptMsgAttrs (i + 1) rest

/-- The completion-message loop of LogCompletion (no tool_call_id in
this loop). -/
def completionMsgAttrs : Nat → List Message → List Attr
  | _, [] => []
  | i, msg :: rest =>
    ([(.idx "gen_ai.completion" i ".role", .str msg.Role)] ++
     (if msg.Content ≠ "" then [(.idx "gen_ai.completion" i ".content", .str msg.Content)] else []) ++
     toolCallAttrs "gen_ai.completion" i 0 msg.ToolCalls) ++
    completionMsgAttrs (i + 1) rest

/-- The tool-definition loop of LogPrompt: type and function name
unconditionally, description when non-empty, parameters when they
marshal.  It runs outside the content gate. -/
def toolDefAttrs : Nat → List ToolDef → List Attr
  | _, [] => []
  | i, tool :: rest =>
    ([(.idx "gen_ai.request.tool" i ".type", .str tool.«Type»),
      (.idx "gen_ai.request.tool" i ".function.name", .str tool.Function.Name)] ++
     (if tool.Function.Description ≠ "" then
        [(.idx "gen_ai.request.tool" i ".function.description", .str tool.Function.Description)]
      else []) ++
     (match tool.Function.Parameters with
      | some data => [(.idx "gen_ai.request.tool" i ".function.parameters", .str data)]
      | none => [])) ++
    toolDefAttrs (i + 1) rest

/-- The request attributes this LogPrompt sets before the content
gate, in source order: both naming schemes for vendor and model, then
the optional request parameters. -/
def requestBaseAttrs (p : Prompt) : List Attr :=
  [(.flat "gen_ai.system", .str p.Vendor),
   (.flat "gen_ai.request.model", .str p.Model)] ++
  [(.flat "llm.vendor", .str p.Vendor),
   (.flat "llm.request.model", .str p.Model),
   (.flat "llm.request.type", .str "chat")] ++
  (if p.MaxTokens > 0 then [(.flat "gen_ai.request.max_tokens", .int p.MaxTokens)] else []) ++
  (match p.Temperature with
   | some t => [(.flat "gen_ai.request.temperature", .float t)]
   | none => []) ++
  (match p.TopP with
   | some t => [(.flat "gen_ai.request.top_p", .float t)]
   | none => []) ++
  (match p.FrequencyPenalty with
   | some t => [(.flat "gen_ai.request.frequency_penalty", .float t)]
   | none => []) ++
  (match p.PresencePenalty with
   | some t => [(.flat "gen_ai.request.presence_penalty", .float t)]
   | none => []) ++
  (if p.Stop.length > 0 then [(.flat "gen_ai.request.stop_sequences", .strList p.Stop)] else [])

/-- The attributes this LogPrompt sets, in source order: the base
request attributes, the prompt messages behind the content gate, then
the tool definitions (always). -/
def logPromptAttrs (globalCfg : Option Config) (p : Prompt) : List Attr :=
  requestBaseAttrs p ++
  (if isTraceContentEnabled globalCfg then promptMsgAttrs 0 p.Messages else []) ++
  toolDefAttrs 0 p.Tools

/-- The response attributes this LogCompletion sets before the content
gate: the response model under both schemes when non-empty, then every
usage counter unconditionally (gen_ai input and output, llm prompt,
completion and total). -/
def responseBaseAttrs (completion : Completion) (usage : Usage) : List Attr :=
  (if completion.Model ≠ "" then
     [(.flat "gen_ai.response.model", .str completion.Model),
      (.flat "llm.response.model", .str completion.Model)]
   else []) ++
  [(.flat "gen_ai.usage.input_tokens", .int usage.PromptTokens),
   (.flat "gen_ai.usage.output_tokens", .int usage.CompletionTokens)] ++
  [(.flat "llm.usage.prompt_tokens", .int usage.PromptTokens),
   (.flat "llm.usage.completion_tokens", .int usage.CompletionTokens),
   (.flat "llm.usage.total_tokens", .int usage.TotalTokens)]

/-- The attributes this LogCompletion sets before ending the span: the
base response / usage attributes, then the completion messages behind
the gate. -/
def logCompletionAttrs (globalCfg : Option Config) (completion : Completion)
    (usage : Usage) : List Attr :=
  responseBaseAttrs completion usage ++
  (if isTraceContentEnabled globalCfg then completionMsgAttrs 0 completion.Messages else [])

structure LLMSpanRec where
  span : Option Unit := none
deriving DecidableEq, Repr

/-- This LogCompletion checks `ls == nil || ls.span == nil` first, so a
nil receiver is a genuine no-op rather than a panic. -/
def logCompletionOn (ls : Option LLMSpanRec) (globalCfg : Option Config)
    (completion : Completion) (usage : Usage) : Option (List Attr × Bool) :=
  match ls with
  | none => some ([], false)
  | some rec0 =>
    match rec0.span with
    | none => some ([], false)
    | some _ => some (logCompletionAttrs globalCfg completion usage, true)

end LlmB

/-!
workflow.go: the four hierarchy span constructors and the ambient
workflow-name slot.  Only the slot of the ambient context matters for
their attribute output; it is modelled directly.
-/

namespace Wf

/-- The workflow-name slot of the ambient context: context.WithValue
under workflowNameKey.  `none` means the key was never set. -/
structure Ctx where
  workflowName : Option String := none
deriving DecidableEq, Repr

/-- workflow.go: workflowNameFromContext — the stored name, or "" when
the key is absent. -/
def workflowNameFromContext (ctx : Ctx) : String :=
  match ctx.workflowName with
  | some name => name
  | none => ""

/-- workflow.go: StartWorkflow stores its name into the context for
child spans to inherit. -/
def startWorkflowCtx (ctx : Ctx) (name : String) : Ctx :=
  { ctx with workflowName := some name }

/-- workflow.go: the attributes StartWorkflow stamps on its span. -/
def startWorkflowAttrs (name : String) : List Attr :=
  [(.flat "traceloop.span.kind", .str "workflow"),
   (.flat "traceloop.entity.name", .str name),
   (.flat "traceloop.workflow.name", .str name)]

/-- workflow.go: the attributes StartTask stamps — kind, entity name,
and the inherited workflow name only when it is non-empty. -/
def startTaskAttrs (ctx : Ctx) (name : String) : List Attr :=
  [(.flat "traceloop.span.kind", .str "task"),
   (.flat "traceloop.entity.name", .str name)] ++
  (if workflowNameFromContext ctx ≠ "" then
     [(.flat "traceloop.workflow.name", .str (workflowNameFromContext ctx))]
   else [])

/-- workflow.go: the attributes StartAgent stamps (adds llm.agent.name). -/
def startAgentAttrs (ctx : Ctx) (name : String) : List Attr :=
  [(.flat "traceloop.span.kind", .str "agent"),
   (.flat "traceloop.entity.name", .str name),
   (.flat "llm.agent.name", .str name)] ++
  (if workflowNameFromContext ctx ≠ "" then
     [(.flat "traceloop.workflow.name", .str (workflowNameFromContext ctx))]
   else [])

/-- workflow.go: the attributes StartTool stamps. -/
def startToolAttrs (ctx : Ctx) (name : String) : List Attr :=
  [(.flat "traceloop.span.kind", .str "tool"),
   (.flat "traceloop.entity.name", .str name)] ++
  (if workflowNameFromContext ctx ≠ "" then
     [(.flat "traceloop.workflow.name", .str (workflowNameFromContext ctx))]
   else [])

end Wf

/-!
sdk.go: the process-wide lifecycle singleton (guarded by one mutex,
which serializes Init and Shutdown; the lock itself needs no model once
calls are serialized).  External effects — resolveConfig, the OTLP
exporter constructor and the resource merge — are inputs to the
transition function; the tracer provider handle is an opaque number.
-/

namespace Sdk

/-- An opaque tracer-provider handle. -/
abbrev Provider := Nat

/-- The package-level mutable state of sdk.go: initialized flag, current
provider, active config, plus whether otel.SetTracerProvider was called
(the global registration performed on the success path). -/
structure SDKState where
  initialized : Bool := false
  provider : Option Provider := none
  activeConfig : Option Config := none
  otelInstalled : Bool := false
deriving DecidableEq, Repr

/-- The outcome Init hands back: the returned error, whether the
returned shutdown handle is the inert no-op, and whether the
double-Init warning was logged. -/
structure InitResult where
  err : Option String := none
  shutdownNoop : Bool := true
  warned : Bool := false
deriving DecidableEq, Repr

/-- The external collaborators Init consults on its success path: the
OTLP exporter constructor, the resource merge, and the fresh provider
the tracing runtime hands back. -/
structure InitExternals where
  exporter : Except String Unit := .ok ()
  resource : Except String Unit := .ok ()
  newProvider : Provider := 0
deriving Repr

/-- sdk.go: Init.  `resolved` is the result of resolveConfig(opts...).
Branches in source order: already initialized (warn, inert handle, nil
error, state untouched); config error; disabled config (skip, inert
handle, nil error, state untouched); exporter / resource failure; then
install the provider and flip the flag.  Only the success path returns
the real shutdown closure. -/
def Init (s : SDKState) (resolved : Except String Config)
    (ext : InitExternals) : SDKState × InitResult :=
  if s.initialized then
    (s, { err := none, shutdownNoop := true, warned := true })
  else
    match resolved with
    | .error e => (s, { err := some e, shutdownNoop := true, warned := false })
    | .ok cfg =>
      if !cfg.enabled then
        (s, { err := none, shutdownNoop := true, warned := false })
      else
        match ext.exporter with
        | .error e => (s, { err := some ("triage: failed to create OTLP exporter: " ++ e),
                            shutdownNoop := true, warned := false })
        | .ok _ =>
          match ext.resource with
          | .error e => (s, { err := some ("triage: failed to create resource: " ++ e),
                              shutdownNoop := true, warned := false })
          | .ok _ =>
            ({ initialized := true, provider := some ext.newProvider,
               activeConfig := some cfg, otelInstalled := true },
             { err := none, shutdownNoop := false, warned := false })

/-- sdk.go: Shutdown.  `flushErr` is whatever provider.Shutdown(ctx)
returns on the flush.  When not initialized or no provider is held, the
call is a no-op returning nil; otherwise it flushes, clears the state
and propagates the flush error. -/
def Shutdown (s : SDKState) (flushErr : Option String) : SDKState × Option String :=
  if !s.initialized || s.provider = none then
    (s, none)
  else
    ({ s with initialized := false, provider := none, activeConfig := none }, flushErr)

end Sdk

namespace Wf

/-- workflow.go: End on a possibly nil hierarchy-span pointer holding a
possibly nil span handle.  All four hierarchy types guard with
`w != nil && w.span != nil`, so the call never panics; the Bool records
whether the underlying span was ended. -/
def endOn (w : Option (Option Unit)) : Bool :=
  match w with
  | none => false
  | some none => false
  | some (some _) => true

end Wf

/-- Message-content keys: the indexed prompt / completion message
attributes (role, content, tool_call_id) and every tool-call attribute.
Fixed keys and the indexed tool-definition keys (bases
gen_ai.request.tool and gen_ai.request.tools) are not content keys. -/
def isMsgContentKey : AttrKey → Bool
  | .toolCall _ _ _ _ => true
  | .idx base _ _ => base == "gen_ai.prompt" || base == "gen_ai.completion"
  | .flat _ => false

/-- Tool-definition keys of the llm.go generation (base
gen_ai.request.tools). -/
def isToolDefKeyA : AttrKey → Bool
  | .idx base _ _ => base == "gen_ai.request.tools"
  | _ => false

/-! General helper lemmas about membership in the conditional singleton
lists the attribute builders use. -/

theorem mem_if_singleton {α : Type} {c : Prop} [Decidable c] {a b : α} :
    (a ∈ (if c then [b] else [])) ↔ (c ∧ a = b) := by
  split <;> simp_all

theorem mem_match_option {α β : Type} (o : Option α) (g : α → β) (a : β) :
    (a ∈ (match o with | some n => [g n] | none => ([] : List β))) ↔
      (∃ n, o = some n ∧ a = g n) := by
  cases o <;> simp

/-! Preservation lemmas for the annotation context: an option or helper
call that does not write a field leaves that field untouched. -/

theorem userOpts_preserve (opts : List UserOption) (tc : TriageContext) (f : Field)
    (h : ∀ o ∈ opts, o.writes f = false) :
    getField (opts.foldl applyUserOption tc) f = getField tc f := by
  induction opts generalizing tc with
  | nil => rfl
  | cons o rest ih =>
    rw [List.foldl_cons, ih _ (fun x hx => h x (List.mem_cons_of_mem _ hx))]
    have hh := h o (List.mem_cons_self _ _)
    cases o with
    | userRole r => cases f <;> simp_all [UserOption.writes, applyUserOption, getField]

theorem tenantOpts_preserve (opts : List TenantOption) (tc : TriageContext) (f : Field)
    (h : ∀ o ∈ opts, o.writes f = false) :
    getField (opts.foldl applyTenantOption tc) f = getField tc f := by
  induction opts generalizing tc with
  | nil => rfl
  | cons o rest ih =>
    rw [List.foldl_cons, ih _ (fun x hx => h x (List.mem_cons_of_mem _ hx))]
    have hh := h o (List.mem_cons_self _ _)
    cases o with
    | tenantName n => cases f <;> simp_all [TenantOption.writes, applyTenantOption, getField]

theorem sessionOpts_preserve (opts : List SessionOption) (tc : TriageContext) (f : Field)
    (h : ∀ o ∈ opts, o.writes f = false) :
    getField (opts.foldl applySessionOption tc) f = getField tc f := by
  induction opts generalizing tc with
  | nil => rfl
  | cons o rest ih =>
    rw [List.foldl_cons, ih _ (fun x hx => h x (List.mem_cons_of_mem _ hx))]
    have hh := h o (List.mem_cons_self _ _)
    cases o with
    | turnNumber n => cases f <;> simp_all [SessionOption.writes, applySessionOption, getField]
    | historyHash v => cases f <;> simp_all [SessionOption.writes, applySessionOption, getField]

theorem inputOpts_preserve (opts : List InputOption) (tc : TriageContext) (f : Field)
    (h : ∀ o ∈ opts, o.writes f = false) :
    getField (opts.foldl applyInputOption tc) f = getField tc f := by
  induction opts generalizing tc with
  | nil => rfl
  | cons o rest ih =>
    rw [List.foldl_cons, ih _ (fun x hx => h x (List.mem_cons_of_mem _ hx))]
    have hh := h o (List.mem_cons_self _ _)
    cases o with
    | sanitized s => cases f <;> simp_all [InputOption.writes, applyInputOption, getField]

theorem templateOpts_preserve (opts : List TemplateOption) (tc : TriageContext) (f : Field)
    (h : ∀ o ∈ opts, o.writes f = false) :
    getField (opts.foldl applyTemplateOption tc) f = getField tc f := by
  induction opts generalizing tc with
  | nil => rfl
  | cons o rest ih =>
    rw [List.foldl_cons, ih _ (fun x hx => h x (List.mem_cons_of_mem _ hx))]
    have hh := h o (List.mem_cons_self _ _)
    cases o with
    | templateVersion v =>
      cases f <;> simp_all [TemplateOption.writes, applyTemplateOption, getField]

theorem applyUpdate_preserve (tc : TriageContext) (u : Update) (f : Field)
    (h : u.writes f = false) :
    getField (applyUpdate tc u) f = getField tc f := by
  cases u with
  | withUser id opts =>
    simp only [Update.writes, Bool.or_eq_false_iff, List.any_eq_false] at h
    rw [applyUpdate, userOpts_preserve _ _ _ (fun o ho => by simpa using h.2 o ho)]
    cases f <;> simp_all [getField, TriageContext.clone]
  | withTenant id opts =>
    simp only [Update.writes, Bool.or_eq_false_iff, List.any_eq_false] at h
    rw [applyUpdate, tenantOpts_preserve _ _ _ (fun o ho => by simpa using h.2 o ho)]
    cases f <;> simp_all [getField, TriageContext.clone]
  | withSession id opts =>
    simp only [Update.writes, Bool.or_eq_false_iff, List.any_eq_false] at h
    rw [applyUpdate, sessionOpts_preserve _ _ _ (fun o ho => by simpa using h.2 o ho)]
    cases f <;> simp_all [getField, TriageContext.clone]
  | withInput raw opts =>
    simp only [Update.writes, Bool.or_eq_false_iff, List.any_eq_false] at h
    rw [applyUpdate, inputOpts_preserve _ _ _ (fun o ho => by simpa using h.2 o ho)]
    cases f <;> simp_all [getField, TriageContext.clone]
  | withTemplate id opts =>
    simp only [Update.writes, Bool.or_eq_false_iff, List.any_eq_false] at h
    rw [applyUpdate, templateOpts_preserve _ _ _ (fun o ho => by simpa using h.2 o ho)]
    cases f <;> simp_all [getField, TriageContext.clone]
  | withChunkACLs ser =>
    cases ser with
    | none => cases f <;> simp [applyUpdate, getField, TriageContext.clone]
    | some s =>
      simp only [Update.writes, Option.isSome_some, Bool.true_and] at h
      cases f <;> simp_all [applyUpdate, getField, TriageContext.clone]

theorem applyAll_preserve (us : List Update) (tc : TriageContext) (f : Field)
    (h : ∀ u ∈ us, u.writes f = false) :
    getField (applyAll tc us) f = getField tc f := by
  induction us generalizing tc with
  | nil => rfl
  | cons u rest ih =>
    have step : applyAll tc (u :: rest) = applyAll (applyUpdate tc u) rest := by
      simp [applyAll]
    rw [step, ih _ (fun x hx => h x (List.mem_cons_of_mem _ hx)),
        applyUpdate_preserve _ _ _ (h u (List.mem_cons_self _ _))]

/-- Claim C1: no-lost-update merge.  Deriving a new context through any
annotation helper never changes a field the helper does not write; over
any chain of helper calls starting from the empty context, a field
written at step i and not written by any later step keeps its step-i
value in the final context; and the double-WithUser scenario projects
user.id = "u2" together with the preserved user.role = "admin". -/
theorem C1_merge_no_lost_update :
    (∀ (tc : TriageContext) (u : Update) (f : Field), u.writes f = false →
      getField (applyUpdate tc u) f = getField tc f) ∧
    (∀ (pre post : List Update) (u : Update) (f : Field),
      (∀ w ∈ post, w.writes f = false) →
      getField (applyAll emptyTriageContext (pre ++ u :: post)) f =
        getField (applyUpdate (applyAll emptyTriageContext pre) u) f) ∧
    ((AttrKey.flat AttrUserID, AttrVal.str "u2") ∈
        getTriageAttrs (applyUpdate (applyUpdate emptyTriageContext
          (.withUser "u1" [.userRole "admin"])) (.withUser "u2" [])) ∧
     (AttrKey.flat AttrUserRole, AttrVal.str "admin") ∈
        getTriageAttrs (applyUpdate (applyUpdate emptyTriageContext
          (.withUser "u1" [.userRole "admin"])) (.withUser "u2" []))) := by
  refine ⟨fun tc u f h => applyUpdate_preserve tc u f h, ?_, by decide, by decide⟩
  intro pre post u f h
  have split2 : applyAll emptyTriageContext (pre ++ u :: post) =
      applyAll (applyUpdate (applyAll emptyTriageContext pre) u) post := by
    simp [applyAll, List.foldl_append]
  rw [split2, applyAll_preserve _ _ _ h]

/-- Witness for C1 at a concrete chain: with the updates
[WithUser "u1" role admin, WithUser "u2"] the role written at step 0
survives the later WithUser call that does not write it. -/
theorem C1_merge_no_lost_update_witness :
    getField (applyAll emptyTriageContext
      [Update.withUser "u1" [UserOption.userRole "admin"], Update.withUser "u2" []])
      Field.userRole = FieldVal.s "admin" := by
  have h := C1_merge_no_lost_update.2.1 [] [Update.withUser "u2" []]
    (Update.withUser "u1" [UserOption.userRole "admin"]) Field.userRole (by decide)
  exact h.trans (by decide)

/-- Claim C2: projection presence.  The empty context projects to the
empty attribute list; for every context and every one of the twelve
fields, the fixed triage.* key of the field appears in the projection
iff the field is present (non-empty resp. explicitly set); no emitted
value is an empty-string placeholder; and a turn number explicitly set
to 0 is emitted as integer 0 while a never-set turn number emits
nothing, so the two are distinguishable. -/
theorem C2_projection_presence :
    (getTriageAttrs emptyTriageContext = []) ∧
    (∀ (tc : TriageContext) (f : Field),
      (∃ v, (AttrKey.flat (fieldKey f), v) ∈ getTriageAttrs tc) ↔ fieldPresent tc f = true) ∧
    (∀ (tc : TriageContext) (k : AttrKey) (v : AttrVal),
      (k, v) ∈ getTriageAttrs tc → v ≠ AttrVal.str "") ∧
    (∀ tc : TriageContext, tc.sessionTurnNumber = some 0 →
      (AttrKey.flat AttrSessionTurn, AttrVal.int 0) ∈ getTriageAttrs tc) ∧
    (∀ tc : TriageContext, tc.sessionTurnNumber = none →
      ∀ v, (AttrKey.flat AttrSessionTurn, v) ∉ getTriageAttrs tc) := by
  refine ⟨by decide, ?_, ?_, ?_, ?_⟩
  · intro tc f
    cases htu : tc.sessionTurnNumber <;>
      cases f <;>
        simp [getTriageAttrs, fieldKey, fieldPresent, mem_if_singleton, htu,
          AttrUserID, AttrUserRole, AttrTenantID, AttrTenantName, AttrSessionID,
          AttrSessionTurn, AttrSessionHash, AttrInputRaw, AttrInputSanitized,
          AttrTemplateID, AttrTemplateVersion, AttrChunkACLs, Option.isSome_iff_exists]
  · intro tc k v h
    cases htu : tc.sessionTurnNumber <;>
      simp [getTriageAttrs, mem_if_singleton, htu] at h <;>
        aesop
  · intro tc h
    simp [getTriageAttrs, mem_if_singleton, h]
  · intro tc h v
    simp [getTriageAttrs, mem_if_singleton, h,
      AttrUserID, AttrUserRole, AttrTenantID, AttrTenantName, AttrSessionID,
      AttrSessionTurn, AttrSessionHash, AttrInputRaw, AttrInputSanitized,
      AttrTemplateID, AttrTemplateVersion, AttrChunkACLs]

/-- Witness for C2 at a concrete context: a turn number explicitly set
to 0 is emitted as integer 0. -/
theorem C2_projection_presence_witness :
    (AttrKey.flat AttrSessionTurn, AttrVal.int 0) ∈
      getTriageAttrs { emptyTriageContext with sessionTurnNumber := some 0 } :=
  C2_projection_presence.2.2.2.1 { emptyTriageContext with sessionTurnNumber := some 0 } rfl

/-- Claim C7, counterexample: StartWorkflow("") stores "" into the
workflow-name slot, so the task context genuinely descends from a
workflow, yet StartTask stamps no traceloop.workflow.name attribute at
all — the claim promises the attribute equals the workflow name for
every workflow-descended context. -/
theorem C7_workflow_name_counterexample :
    (Wf.startWorkflowCtx {} "").workflowName = some "" ∧
    ((Wf.startTaskAttrs (Wf.startWorkflowCtx {} "") "t1").map Prod.fst).contains
      (AttrKey.flat "traceloop.workflow.name") = false := by
  decide

/-- Claim C7 (amended): StartWorkflow(name) stores name in the returned
ambient context; StartTask / StartAgent / StartTool stamp
traceloop.workflow.name with the inherited name iff that name is
non-empty — a context whose workflow-name slot is unset or holds the
empty string produces no traceloop.workflow.name attribute, so a
workflow named "" is indistinguishable from no workflow. -/
theorem C7_workflow_name_inheritance :
    (∀ (ctx : Wf.Ctx) (name : String),
      (Wf.startWorkflowCtx ctx name).workflowName = some name) ∧
    (∀ (ctx : Wf.Ctx) (wname tname : String), wname ≠ "" →
      (AttrKey.flat "traceloop.workflow.name", AttrVal.str wname) ∈
        Wf.startTaskAttrs (Wf.startWorkflowCtx ctx wname) tname ∧
      (AttrKey.flat "traceloop.workflow.name", AttrVal.str wname) ∈
        Wf.startAgentAttrs (Wf.startWorkflowCtx ctx wname) tname ∧
      (AttrKey.flat "traceloop.workflow.name", AttrVal.str wname) ∈
        Wf.startToolAttrs (Wf.startWorkflowCtx ctx wname) tname) ∧
    (∀ (ctx : Wf.Ctx) (tname : String) (v : AttrVal),
      Wf.workflowNameFromContext ctx = "" →
      (AttrKey.flat "traceloop.workflow.name", v) ∉ Wf.startTaskAttrs ctx tname ∧
      (AttrKey.flat "traceloop.workflow.name", v) ∉ Wf.startAgentAttrs ctx tname ∧
      (AttrKey.flat "traceloop.workflow.name", v) ∉ Wf.startToolAttrs ctx tname) := by
  refine ⟨fun ctx name => rfl, ?_, ?_⟩
  · intro ctx wname tname h
    refine ⟨?_, ?_, ?_⟩ <;>
      simp [Wf.startTaskAttrs, Wf.startAgentAttrs, Wf.startToolAttrs,
        Wf.workflowNameFromContext, Wf.startWorkflowCtx, mem_if_singleton, h]
  · intro ctx tname v h
    refine ⟨?_, ?_, ?_⟩ <;>
      simp [Wf.startTaskAttrs, Wf.startAgentAttrs, Wf.startToolAttrs,
        mem_if_singleton, h]

/-- Witness for C7 at the §8 scenario: startWorkflow("wf") then
startTask("t1") from its context stamps traceloop.workflow.name = "wf". -/
theorem C7_workflow_name_inheritance_witness :
    (AttrKey.flat "traceloop.workflow.name", AttrVal.str "wf") ∈
      Wf.startTaskAttrs (Wf.startWorkflowCtx {} "wf") "t1" :=
  (C7_workflow_name_inheritance.2.1 {} "wf" "t1" (by decide)).1

/-- Claim C8: SDK lifecycle idempotence.  A second Init while
initialized leaves the whole lifecycle state (provider included)
untouched and returns a nil error with the inert shutdown handle;
Shutdown when not initialized is a no-op returning nil with the state
unchanged; and a Shutdown immediately following any Shutdown is always
a no-op returning nil with the state unchanged. -/
theorem C8_lifecycle_idempotence :
    (∀ (s : Sdk.SDKState) (resolved : Except String Config) (ext : Sdk.InitExternals),
      s.initialized = true →
      Sdk.Init s resolved ext =
        (s, { err := none, shutdownNoop := true, warned := true })) ∧
    (∀ (s : Sdk.SDKState) (flushErr : Option String), s.initialized = false →
      Sdk.Shutdown s flushErr = (s, none)) ∧
    (∀ (s : Sdk.SDKState) (e1 e2 : Option String),
      Sdk.Shutdown (Sdk.Shutdown s e1).1 e2 = ((Sdk.Shutdown s e1).1, none)) := by
  refine ⟨?_, ?_, ?_⟩
  · intro s resolved ext h
    simp [Sdk.Init, h]
  · intro s flushErr h
    simp [Sdk.Shutdown, h]
  · intro s e1 e2
    rcases s with ⟨i, p, c, o⟩
    cases i <;> cases p <;> simp [Sdk.Shutdown]

/-- Witness for C8 at a concrete state: double Init on an initialized
state with provider 7 returns the inert handle and changes nothing, and
a double Shutdown from that state returns nil. -/
theorem C8_lifecycle_idempotence_witness :
    Sdk.Init
        { initialized := true, provider := some 7, activeConfig := some {},
          otelInstalled := true }
        (.ok {}) {} =
      ({ initialized := true, provider := some 7, activeConfig := some {},
         otelInstalled := true },
       { err := none, shutdownNoop := true, warned := true }) ∧
    Sdk.Shutdown
        (Sdk.Shutdown
          { initialized := true, provider := some 7, activeConfig := some {},
            otelInstalled := true } none).1 none =
      ((Sdk.Shutdown
          { initialized := true, provider := some 7, activeConfig := some {},
            otelInstalled := true } none).1, none) :=
  ⟨C8_lifecycle_idempotence.1 _ _ _ rfl, C8_lifecycle_idempotence.2.2 _ none none⟩

/-- Claim C10: a resolved configuration with enabled = false makes Init
return a nil error and the inert shutdown handle while leaving the
whole state untouched (initialized stays false, no provider installed),
and a subsequent Init from that state with an enabled configuration is
not treated as a double call: it does not warn, installs the provider
and flips initialized to true. -/
theorem C10_disabled_init_skips :
    (∀ (s : Sdk.SDKState) (cfg : Config) (ext : Sdk.InitExternals),
      s.initialized = false → cfg.enabled = false →
      Sdk.Init s (.ok cfg) ext =
        (s, { err := none, shutdownNoop := true, warned := false })) ∧
    (∀ (s : Sdk.SDKState) (cfg cfg2 : Config) (ext ext2 : Sdk.InitExternals),
      s.initialized = false → cfg.enabled = false → cfg2.enabled = true →
      ext2.exporter = .ok () → ext2.resource = .ok () →
      Sdk.Init (Sdk.Init s (.ok cfg) ext).1 (.ok cfg2) ext2 =
        ({ initialized := true, provider := some ext2.newProvider,
           activeConfig := some cfg2, otelInstalled := true },
         { err := none, shutdownNoop := false, warned := false })) := by
  refine ⟨?_, ?_⟩
  · intro s cfg ext h1 h2
    simp [Sdk.Init, h1, h2]
  · intro s cfg cfg2 ext ext2 h1 h2 h3 hex hres
    have hfst : (Sdk.Init s (.ok cfg) ext).1 = s := by
      simp [Sdk.Init, h1, h2]
    rw [hfst]
    simp [Sdk.Init, h1, h3, hex, hres]

/-- Witness for C10 at concrete inputs: disabled Init from the fresh
state changes nothing, and the follow-up enabled Init succeeds and is
not warned as a double call. -/
theorem C10_disabled_init_skips_witness :
    Sdk.Init {} (.ok { enabled := false }) {} =
      ({}, { err := none, shutdownNoop := true, warned := false }) ∧
    Sdk.Init (Sdk.Init {} (.ok { enabled := false }) {}).1 (.ok {}) {} =
      ({ initialized := true, provider := some 0, activeConfig := some {},
         otelInstalled := true },
       { err := none, shutdownNoop := false, warned := false }) :=
  ⟨C10_disabled_init_skips.1 {} { enabled := false } {} rfl rfl,
   C10_disabled_init_skips.2 {} { enabled := false } {} {} {} rfl rfl rfl rfl rfl⟩

/-- Claim C4, counterexample: with vendor "openai" and model "gpt-4o",
the llm.go LogPrompt names the span "openai.chat" — the model never
enters the name, contradicting the claimed "<vendor>.chat <model>";
and the other generation with an empty vendor yields ".chat gpt-4o"
rather than any generic fallback name. -/
theorem C4_span_name_counterexample :
    LlmA.logPromptSpanName { Vendor := "openai", Model := "gpt-4o" } = "openai.chat" ∧
    "openai.chat" ≠ "openai.chat gpt-4o" ∧
    LlmB.logPromptSpanName { Vendor := "", Model := "gpt-4o" } = ".chat gpt-4o" := by
  decide

/-- Claim C4 (amended): the two generations name LLM spans differently.
The llm.go LogPrompt uses "<vendor>.chat" whenever the vendor is
non-empty (the model never appears) and the fixed fallback "llm.chat"
when the vendor is empty; the other LogPrompt uses
"<vendor>.chat <model>" when the model is non-empty and "<vendor>.chat"
when it is empty, with no special fallback for an empty vendor. -/
theorem C4_span_naming :
    (∀ p : LlmA.PromptParams, p.Vendor ≠ "" →
      LlmA.logPromptSpanName p = p.Vendor ++ ".chat") ∧
    (∀ p : LlmA.PromptParams, p.Vendor = "" →
      LlmA.logPromptSpanName p = "llm.chat") ∧
    (∀ p : LlmB.Prompt, p.Model ≠ "" →
      LlmB.logPromptSpanName p = p.Vendor ++ ".chat " ++ p.Model) ∧
    (∀ p : LlmB.Prompt, p.Model = "" →
      LlmB.logPromptSpanName p = p.Vendor ++ ".chat") := by
  refine ⟨?_, ?_, ?_, ?_⟩ <;> intro p h <;>
    simp [LlmA.logPromptSpanName, LlmB.logPromptSpanName, h]

/-- Witness for C4 at concrete prompts: both naming rules evaluated. -/
theorem C4_span_naming_witness :
    LlmA.logPromptSpanName { Vendor := "anthropic" } = "anthropic.chat" ∧
    LlmB.logPromptSpanName { Vendor := "anthropic", Model := "claude-sonnet-4-5-20250929" } =
      "anthropic.chat claude-sonnet-4-5-20250929" :=
  ⟨C4_span_naming.1 { Vendor := "anthropic" } (by decide),
   C4_span_naming.2.2.1 { Vendor := "anthropic", Model := "claude-sonnet-4-5-20250929" }
     (by decide)⟩

/-- Claim C9, evaluation at the failing input: on the llm.go
generation, LogCompletion, End and SetError invoked on a nil *LLMSpan
dereference the nil receiver and panic (result none), while the
zero-valued receiver is a safe no-op; the other generation and the
hierarchy spans guard the receiver and are safe no-ops even on nil. -/
theorem C9_nil_receiver_evaluation :
    LlmA.logCompletionOn none none {} = none ∧
    LlmA.endOn none = none ∧
    LlmA.setErrorOn none = none ∧
    LlmA.logCompletionOn (some {}) none {} = some ([], false) ∧
    LlmA.endOn (some {}) = some ([], false) ∧
    LlmA.setErrorOn (some {}) = some ([], false) ∧
    LlmB.logCompletionOn none none {} {} = some ([], false) ∧
    Wf.endOn none = false :=
  ⟨by decide, by decide, by decide, by decide, by decide, by decide, by decide, by decide⟩

/-! Key-shape lemmas: the indexed message, tool-call and
tool-definition attribute builders never produce a fixed (flat) key,
and tool-definition keys are never message-content keys. -/

theorem LlmA_toolCallAttrs_no_flat (base : String) (i : Nat) :
    ∀ (j : Nat) (tcs : List LlmA.ToolCallA) (k : String) (v : AttrVal),
      (AttrKey.flat k, v) ∉ LlmA.toolCallAttrs base i j tcs := by
  intro j tcs
  induction tcs generalizing j with
  | nil => intro k v; simp [LlmA.toolCallAttrs]
  | cons t rest ih =>
    intro k v
    simp [LlmA.toolCallAttrs, mem_if_singleton]
    exact ih (j + 1) k v

theorem LlmA_setMessageAttrs_no_flat (base : String) :
    ∀ (i : Nat) (msgs : List LlmA.Message) (k : String) (v : AttrVal),
      (AttrKey.flat k, v) ∉ LlmA.setMessageAttrs base i msgs := by
  intro i msgs
  induction msgs generalizing i with
  | nil => intro k v; simp [LlmA.setMessageAttrs]
  | cons m rest ih =>
    intro k v
    simp [LlmA.setMessageAttrs, mem_if_singleton, LlmA_toolCallAttrs_no_flat]
    exact ih (i + 1) k v

theorem LlmA_setToolDefinitionAttrs_no_flat :
    ∀ (i : Nat) (tools : List LlmA.ToolDefinition) (k : String) (v : AttrVal),
      (AttrKey.flat k, v) ∉ LlmA.setToolDefinitionAttrs i tools := by
  intro i tools
  induction tools generalizing i with
  | nil => intro k v; simp [LlmA.setToolDefinitionAttrs]
  | cons t rest ih =>
    intro k v
    cases hp : t.Parameters <;>
      simp [LlmA.setToolDefinitionAttrs, mem_if_singleton, hp] <;>
      exact ih (i + 1) k v

theorem LlmB_toolCallAttrs_no_flat (base : String) (i : Nat) :
    ∀ (j : Nat) (tcs : List LlmB.ToolCallB) (k : String) (v : AttrVal),
      (AttrKey.flat k, v) ∉ LlmB.toolCallAttrs base i j tcs := by
  intro j tcs
  induction tcs generalizing j with
  | nil => intro k v; simp [LlmB.toolCallAttrs]
  | cons t rest ih =>
    intro k v
    simp [LlmB.toolCallAttrs]
    exact ih (j + 1) k v

theorem LlmB_completionMsgAttrs_no_flat :
    ∀ (i : Nat) (msgs : List LlmB.Message) (k : String) (v : AttrVal),
      (AttrKey.flat k, v) ∉ LlmB.completionMsgAttrs i msgs := by
  intro i msgs
  induction msgs generalizing i with
  | nil => intro k v; simp [LlmB.completionMsgAttrs]
  | cons m rest ih =>
    intro k v
    simp [LlmB.completionMsgAttrs, mem_if_singleton, LlmB_toolCallAttrs_no_flat]
    exact ih (i + 1) k v

theorem LlmB_toolDefAttrs_not_content :
    ∀ (i : Nat) (tools : List LlmB.ToolDef) (k : AttrKey) (v : AttrVal),
      (k, v) ∈ LlmB.toolDefAttrs i tools → isMsgContentKey k = false := by
  intro i tools
  induction tools generalizing i with
  | nil => intro k v h; simp [LlmB.toolDefAttrs] at h
  | cons t rest ih =>
    intro k v h
    cases hp : t.Function.Parameters with
    | none =>
      rw [LlmB.toolDefAttrs, hp] at h
      simp [mem_if_singleton] at h
      rcases h with ⟨rfl, -⟩ | ⟨rfl, -⟩ | ⟨-, rfl, -⟩ | h
      · simp [isMsgContentKey]
      · simp [isMsgContentKey]
      · simp [isMsgContentKey]
      · exact ih (i + 1) k v h
    | some s =>
      rw [LlmB.toolDefAttrs, hp] at h
      simp [mem_if_singleton] at h
      rcases h with ⟨rfl, -⟩ | ⟨rfl, -⟩ | ⟨-, rfl, -⟩ | ⟨rfl, -⟩ | h
      · simp [isMsgContentKey]
      · simp [isMsgContentKey]
      · simp [isMsgContentKey]
      · simp [isMsgContentKey]
      · exact ih (i + 1) k v h

/-- Claim C6, counterexample: the LogCompletion of the unnamed-part
generation records every usage counter unconditionally, so a usage of
all zeros still emits gen_ai.usage.input_tokens = 0 and
llm.usage.total_tokens = 0 — a zero counter is observably different
from the claimed omission. -/
theorem C6_zero_usage_counterexample :
    (AttrKey.flat "gen_ai.usage.input_tokens", AttrVal.int 0) ∈
      LlmB.logCompletionAttrs none {} {} ∧
    (AttrKey.flat "llm.usage.total_tokens", AttrVal.int 0) ∈
      LlmB.logCompletionAttrs none {} {} :=
  ⟨by decide, by decide⟩

/-- Claim C6 (amended): in the llm.go generation of LogCompletion each
of the six usage counters is recorded iff strictly positive (so zero is
indistinguishable from absent there), while the unnamed-part generation
records its counters (gen_ai input and output, llm prompt, completion
and total) unconditionally, emitting explicit zeros. -/
theorem C6_zero_usage_omission :
    (∀ (cfg : Option Config) (params : LlmA.CompletionParams),
      ((∃ v, (AttrKey.flat AttrGenAIUsageInputTokens, v) ∈
          LlmA.logCompletionAttrs cfg params) ↔ params.Usage.InputTokens > 0) ∧
      ((∃ v, (AttrKey.flat AttrGenAIUsageOutputTokens, v) ∈
          LlmA.logCompletionAttrs cfg params) ↔ params.Usage.OutputTokens > 0) ∧
      ((∃ v, (AttrKey.flat AttrGenAIUsageTotalTokens, v) ∈
          LlmA.logCompletionAttrs cfg params) ↔ params.Usage.TotalTokens > 0) ∧
      ((∃ v, (AttrKey.flat AttrGenAIUsageReasoningTokens, v) ∈
          LlmA.logCompletionAttrs cfg params) ↔ params.Usage.ReasoningTokens > 0) ∧
      ((∃ v, (AttrKey.flat AttrGenAIUsageCacheReadTokens, v) ∈
          LlmA.logCompletionAttrs cfg params) ↔ params.Usage.CacheReadTokens > 0) ∧
      ((∃ v, (AttrKey.flat AttrGenAIUsageCacheWriteTokens, v) ∈
          LlmA.logCompletionAttrs cfg params) ↔ params.Usage.CacheWriteTokens > 0)) ∧
    (∀ (cfg : Option Config) (c : LlmB.Completion) (u : LlmB.Usage),
      (AttrKey.flat "gen_ai.usage.input_tokens", AttrVal.int u.PromptTokens) ∈
        LlmB.logCompletionAttrs cfg c u ∧
      (AttrKey.flat "gen_ai.usage.output_tokens", AttrVal.int u.CompletionTokens) ∈
        LlmB.logCompletionAttrs cfg c u ∧
      (AttrKey.flat "llm.usage.prompt_tokens", AttrVal.int u.PromptTokens) ∈
        LlmB.logCompletionAttrs cfg c u ∧
      (AttrKey.flat "llm.usage.completion_tokens", AttrVal.int u.CompletionTokens) ∈
        LlmB.logCompletionAttrs cfg c u ∧
      (AttrKey.flat "llm.usage.total_tokens", AttrVal.int u.TotalTokens) ∈
        LlmB.logCompletionAttrs cfg c u) := by
  constructor
  · intro cfg params
    refine ⟨?_, ?_, ?_, ?_, ?_, ?_⟩ <;>
      simp [LlmA.logCompletionAttrs, LlmA.responseAttrs, mem_if_singleton,
        LlmA_setMessageAttrs_no_flat,
        AttrGenAIResponseModel, AttrGenAIResponseFinishReason, AttrGenAIUsageInputTokens,
        AttrGenAIUsageOutputTokens, AttrGenAIUsageTotalTokens, AttrGenAIUsageReasoningTokens,
        AttrGenAIUsageCacheReadTokens, AttrGenAIUsageCacheWriteTokens]
  · intro cfg c u
    refine ⟨?_, ?_, ?_, ?_, ?_⟩ <;>
      simp [LlmB.logCompletionAttrs, LlmB.responseBaseAttrs]

/-- Claim C5, counterexample: running the §8 scenario through the
llm.go generation yields a completion carrying no llm.* attribute at
all (in particular no llm.usage.total_tokens) and a span named
"openai.chat" instead of "openai.chat gpt-4o" — that generation
implements only the gen_ai.* schema. -/
theorem C5_dual_schema_counterexample :
    ((LlmA.logCompletionAttrs none
        { Model := "gpt-4o",
          Usage := { InputTokens := 10, OutputTokens := 5, TotalTokens := 15 } }).map
        Prod.fst).contains (AttrKey.flat "llm.usage.total_tokens") = false ∧
    LlmA.logPromptSpanName { Vendor := "openai", Model := "gpt-4o" } = "openai.chat" :=
  ⟨by decide, by decide⟩

/-- Claim C5 (amended): the dual gen_ai.* / llm.* naming holds in the
unnamed-part generation: its LogPrompt always records vendor and model
under both schemas (plus llm.request.type = chat), its LogCompletion
records the response model under both schemas and the usage under both,
and the §8 scenario produces the span name "openai.chat gpt-4o" with
gen_ai.system = openai, gen_ai.usage.input_tokens = 10 and
llm.usage.total_tokens = 15.  The llm.go generation records the
gen_ai.* schema only. -/
theorem C5_dual_naming_schemes :
    (∀ (cfg : Option Config) (p : LlmB.Prompt),
      (AttrKey.flat "gen_ai.system", AttrVal.str p.Vendor) ∈ LlmB.logPromptAttrs cfg p ∧
      (AttrKey.flat "gen_ai.request.model", AttrVal.str p.Model) ∈ LlmB.logPromptAttrs cfg p ∧
      (AttrKey.flat "llm.vendor", AttrVal.str p.Vendor) ∈ LlmB.logPromptAttrs cfg p ∧
      (AttrKey.flat "llm.request.model", AttrVal.str p.Model) ∈ LlmB.logPromptAttrs cfg p ∧
      (AttrKey.flat "llm.request.type", AttrVal.str "chat") ∈ LlmB.logPromptAttrs cfg p) ∧
    (∀ (cfg : Option Config) (c : LlmB.Completion) (u : LlmB.Usage), c.Model ≠ "" →
      (AttrKey.flat "gen_ai.response.model", AttrVal.str c.Model) ∈
        LlmB.logCompletionAttrs cfg c u ∧
      (AttrKey.flat "llm.response.model", AttrVal.str c.Model) ∈
        LlmB.logCompletionAttrs cfg c u) ∧
    (LlmB.logPromptSpanName { Vendor := "openai", Model := "gpt-4o" } = "openai.chat gpt-4o" ∧
     (AttrKey.flat "gen_ai.system", AttrVal.str "openai") ∈
       LlmB.logPromptAttrs none
         { Vendor := "openai", Model := "gpt-4o",
           Messages := [{ Role := "user", Content := "Hello" }] } ∧
     (AttrKey.flat "gen_ai.usage.input_tokens", AttrVal.int 10) ∈
       LlmB.logCompletionAttrs none { Model := "gpt-4o" }
         { PromptTokens := 10, CompletionTokens := 5, TotalTokens := 15 } ∧
     (AttrKey.flat "llm.usage.total_tokens", AttrVal.int 15) ∈
       LlmB.logCompletionAttrs none { Model := "gpt-4o" }
         { PromptTokens := 10, CompletionTokens := 5, TotalTokens := 15 }) := by
  refine ⟨?_, ?_, by decide, by decide, by decide, by decide⟩
  · intro cfg p
    refine ⟨?_, ?_, ?_, ?_, ?_⟩ <;> simp [LlmB.logPromptAttrs, LlmB.requestBaseAttrs]
  · intro cfg c u h
    refine ⟨?_, ?_⟩ <;> simp [LlmB.logCompletionAttrs, LlmB.responseBaseAttrs, h]

/-- Witness for C5 at the scenario completion: the response model lands
under the compatibility schema as well. -/
theorem C5_dual_naming_schemes_witness :
    (AttrKey.flat "llm.response.model", AttrVal.str "gpt-4o") ∈
      LlmB.logCompletionAttrs none { Model := "gpt-4o" }
        { PromptTokens := 10, CompletionTokens := 5, TotalTokens := 15 } :=
  (C5_dual_naming_schemes.2.1 none { Model := "gpt-4o" }
    { PromptTokens := 10, CompletionTokens := 5, TotalTokens := 15 } (by decide)).2

/-- Helper: position-faithful membership of the tool-definition type
and function-name attributes in the unnamed-part tool loop. -/
theorem LlmB_toolDefAttrs_mem (tools : List LlmB.ToolDef) :
    ∀ (i j : Nat) (h : j < tools.length),
      (AttrKey.idx "gen_ai.request.tool" (i + j) ".type",
        AttrVal.str ((tools.get ⟨j, h⟩).«Type»)) ∈ LlmB.toolDefAttrs i tools ∧
      (AttrKey.idx "gen_ai.request.tool" (i + j) ".function.name",
        AttrVal.str ((tools.get ⟨j, h⟩).Function.Name)) ∈ LlmB.toolDefAttrs i tools := by
  induction tools with
  | nil => intro i j h; exact absurd h (by simp)
  | cons t rest ih =>
    intro i j h
    cases j with
    | zero => constructor <;> simp [LlmB.toolDefAttrs]
    | succ j2 =>
      have h2 : j2 < rest.length := by simpa using h
      have hx := ih (i + 1) j2 h2
      have e : (i + 1) + j2 = i + (j2 + 1) := by omega
      rw [e] at hx
      constructor
      · rw [LlmB.toolDefAttrs]
        exact List.mem_append_right _ hx.1
      · rw [LlmB.toolDefAttrs]
        exact List.mem_append_right _ hx.2

/-- Helper: every key of the ungated llm.go request attributes is one
of the six fixed request keys. -/
theorem LlmA_requestAttrs_keys (p : LlmA.PromptParams) (k : AttrKey) (v : AttrVal)
    (h : (k, v) ∈ LlmA.requestAttrs p) :
    k ∈ [AttrKey.flat AttrGenAISystem, AttrKey.flat AttrGenAIRequestModel,
         AttrKey.flat AttrGenAIRequestTemperature, AttrKey.flat AttrGenAIRequestTopP,
         AttrKey.flat AttrGenAIRequestMaxTokens, AttrKey.flat AttrGenAIRequestStopSequences] := by
  cases ht : p.Temperature <;> cases htp : p.TopP <;> cases hmt : p.MaxTokens <;>
    simp [LlmA.requestAttrs, ht, htp, hmt, mem_if_singleton] at h <;>
    aesop

/-- Helper: every key of the ungated llm.go response attributes is one
of the eight fixed response / usage keys. -/
theorem LlmA_responseAttrs_keys (c : LlmA.CompletionParams) (k : AttrKey) (v : AttrVal)
    (h : (k, v) ∈ LlmA.responseAttrs c) :
    k ∈ [AttrKey.flat AttrGenAIResponseModel, AttrKey.flat AttrGenAIResponseFinishReason,
         AttrKey.flat AttrGenAIUsageInputTokens, AttrKey.flat AttrGenAIUsageOutputTokens,
         AttrKey.flat AttrGenAIUsageTotalTokens, AttrKey.flat AttrGenAIUsageReasoningTokens,
         AttrKey.flat AttrGenAIUsageCacheReadTokens,
         AttrKey.flat AttrGenAIUsageCacheWriteTokens] := by
  simp [LlmA.responseAttrs, mem_if_singleton] at h
  aesop

/-- Helper: the ungated request attributes of the unnamed-part
LogPrompt use fixed keys only. -/
theorem LlmB_requestBaseAttrs_flat (p : LlmB.Prompt) (k : AttrKey) (v : AttrVal)
    (h : (k, v) ∈ LlmB.requestBaseAttrs p) : ∃ n, k = AttrKey.flat n := by
  cases ht : p.Temperature <;> cases htp : p.TopP <;>
    cases hfp : p.FrequencyPenalty <;> cases hpp : p.PresencePenalty <;>
    simp [LlmB.requestBaseAttrs, ht, htp, hfp, hpp, mem_if_singleton] at h <;>
    aesop

/-- Helper: the ungated response attributes of the unnamed-part
LogCompletion use fixed keys only. -/
theorem LlmB_responseBaseAttrs_flat (c : LlmB.Completion) (u : LlmB.Usage)
    (k : AttrKey) (v : AttrVal)
    (h : (k, v) ∈ LlmB.responseBaseAttrs c u) : ∃ n, k = AttrKey.flat n := by
  simp [LlmB.responseBaseAttrs, mem_if_singleton] at h
  aesop

/-- Claim C3, counterexample: in the llm.go generation with the
content policy disabled, a prompt carrying a tool definition produces
exactly the vendor and model attributes — no tool-definition attribute
is recorded, although the claim says tool definitions are recorded
regardless of the policy (the gate in that generation covers
setToolDefinitionAttrs too, as its own test asserts). -/
theorem C3_content_gating_counterexample :
    LlmA.logPromptAttrs (some { traceContent := false })
        { Vendor := "openai", Model := "gpt-4o",
          Messages := [{ Role := "user", Content := "secret prompt" }],
          Tools := [{ Name := "secret_tool", Description := "does secret things" }] } =
      [(AttrKey.flat AttrGenAISystem, AttrVal.str "openai"),
       (AttrKey.flat AttrGenAIRequestModel, AttrVal.str "gpt-4o")] := by
  decide

/-- Claim C3 (amended): with the content policy disabled, both
generations omit every message role / content / tool-call attribute
from prompt and completion while vendor, model and usage attributes
still appear; tool definitions are always recorded in the unnamed-part
generation (they sit outside its gate), whereas the llm.go generation
gates tool definitions together with message content, so nothing beyond
its fixed request keys survives there. -/
theorem C3_content_visibility_gating :
    (∀ (cfg : Option Config) (p : LlmA.PromptParams) (k : AttrKey) (v : AttrVal),
      LlmA.shouldTraceContent cfg = false →
      (k, v) ∈ LlmA.logPromptAttrs cfg p →
      k ∈ [AttrKey.flat AttrGenAISystem, AttrKey.flat AttrGenAIRequestModel,
           AttrKey.flat AttrGenAIRequestTemperature, AttrKey.flat AttrGenAIRequestTopP,
           AttrKey.flat AttrGenAIRequestMaxTokens, AttrKey.flat AttrGenAIRequestStopSequences]) ∧
    (∀ (cfg : Option Config) (c : LlmA.CompletionParams) (k : AttrKey) (v : AttrVal),
      LlmA.shouldTraceContent cfg = false →
      (k, v) ∈ LlmA.logCompletionAttrs cfg c →
      k ∈ [AttrKey.flat AttrGenAIResponseModel, AttrKey.flat AttrGenAIResponseFinishReason,
           AttrKey.flat AttrGenAIUsageInputTokens, AttrKey.flat AttrGenAIUsageOutputTokens,
           AttrKey.flat AttrGenAIUsageTotalTokens, AttrKey.flat AttrGenAIUsageReasoningTokens,
           AttrKey.flat AttrGenAIUsageCacheReadTokens,
           AttrKey.flat AttrGenAIUsageCacheWriteTokens]) ∧
    (∀ (cfg : Option Config) (p : LlmA.PromptParams),
      (p.Vendor ≠ "" →
        (AttrKey.flat AttrGenAISystem, AttrVal.str p.Vendor) ∈ LlmA.logPromptAttrs cfg p) ∧
      (p.Model ≠ "" →
        (AttrKey.flat AttrGenAIRequestModel, AttrVal.str p.Model) ∈ LlmA.logPromptAttrs cfg p)) ∧
    (∀ (cfg : Option Config) (p : LlmB.Prompt) (k : AttrKey) (v : AttrVal),
      LlmB.isTraceContentEnabled cfg = false →
      (k, v) ∈ LlmB.logPromptAttrs cfg p → isMsgContentKey k = false) ∧
    (∀ (cfg : Option Config) (c : LlmB.Completion) (u : LlmB.Usage) (k : AttrKey) (v : AttrVal),
      LlmB.isTraceContentEnabled cfg = false →
      (k, v) ∈ LlmB.logCompletionAttrs cfg c u → isMsgContentKey k = false) ∧
    (∀ (cfg : Option Config) (p : LlmB.Prompt) (j : Nat) (h : j < p.Tools.length),
      (AttrKey.idx "gen_ai.request.tool" j ".type",
        AttrVal.str ((p.Tools.get ⟨j, h⟩).«Type»)) ∈ LlmB.logPromptAttrs cfg p ∧
      (AttrKey.idx "gen_ai.request.tool" j ".function.name",
        AttrVal.str ((p.Tools.get ⟨j, h⟩).Function.Name)) ∈ LlmB.logPromptAttrs cfg p) := by
  refine ⟨?_, ?_, ?_, ?_, ?_, ?_⟩
  · intro cfg p k v hg hm
    simp [LlmA.logPromptAttrs, hg] at hm
    exact LlmA_requestAttrs_keys p k v hm
  · intro cfg c k v hg hm
    simp [LlmA.logCompletionAttrs, hg] at hm
    exact LlmA_responseAttrs_keys c k v hm
  · intro cfg p
    constructor <;> intro h <;>
      simp [LlmA.logPromptAttrs, LlmA.requestAttrs, mem_if_singleton, h]
  · intro cfg p k v hg hm
    simp [LlmB.logPromptAttrs, hg] at hm
    rcases hm with hm | hm
    · obtain ⟨n, rfl⟩ := LlmB_requestBaseAttrs_flat p k v hm
      simp [isMsgContentKey]
    · exact LlmB_toolDefAttrs_not_content 0 p.Tools k v hm
  · intro cfg c u k v hg hm
    simp [LlmB.logCompletionAttrs, hg] at hm
    obtain ⟨n, rfl⟩ := LlmB_responseBaseAttrs_flat c u k v hm
    simp [isMsgContentKey]
  · intro cfg p j h
    have hx := LlmB_toolDefAttrs_mem p.Tools 0 j h
    constructor
    · have h1 := hx.1
      simp only [Nat.zero_add] at h1
      simp [LlmB.logPromptAttrs]
      tauto
    · have h2 := hx.2
      simp only [Nat.zero_add] at h2
      simp [LlmB.logPromptAttrs]
      tauto

/-- Witness for C3 at concrete inputs: with the policy disabled the
unnamed-part LogPrompt still records the tool-definition function name,
and the llm.go LogPrompt still records the vendor. -/
theorem C3_content_visibility_gating_witness :
    (AttrKey.idx "gen_ai.request.tool" 0 ".function.name", AttrVal.str "get_weather") ∈
      LlmB.logPromptAttrs (some { traceContent := false })
        { Vendor := "openai",
          Tools := [{ «Type» := "function", Function := { Name := "get_weather" } }] } ∧
    (AttrKey.flat AttrGenAISystem, AttrVal.str "openai") ∈
      LlmA.logPromptAttrs (some { traceContent := false }) { Vendor := "openai" } :=
  ⟨(C3_content_visibility_gating.2.2.2.2.2 (some { traceContent := false })
      { Vendor := "openai",
        Tools := [{ «Type» := "function", Function := { Name := "get_weather" } }] }
      0 (by decide)).2,
   (C3_content_visibility_gating.2.2.1 (some { traceContent := false })
      { Vendor := "openai" }).1 (by decide)⟩

end TriageSDK
